import Mathlib

/-!
Verification of the p5.millefeuille layer-compositing core (Layer, Compositor,
LayerSystem, blend table) against its natural-language specification.

The shader per-pixel math is embedded over the real numbers; the data model
and state-manipulating operations are embedded over rationals with explicit
state passing, diagnostics returned as lists, and fallible operations
returning Except/Option.
-/

/- ===================== Fragment shader embedding (compositor.frag) ====== -/

noncomputable section

/-- RGB color triple, one real per channel, as in the GLSL vec3. -/
@[ext]
structure RGB where
  r : ℝ
  g : ℝ
  b : ℝ

/-- RGBA color, as in the GLSL vec4. -/
@[ext]
structure RGBA where
  r : ℝ
  g : ℝ
  b : ℝ
  a : ℝ

/-- Channelwise lift of a scalar blend function to vec3, as the shader's
vec3 overloads do. -/
def lift3 (f : ℝ → ℝ → ℝ) (base blnd : RGB) : RGB :=
  ⟨f base.r blnd.r, f base.g blnd.g, f base.b blnd.b⟩

/-- GLSL blendScreen on one channel. -/
def screenF (base blnd : ℝ) : ℝ := 1 - ((1 - base) * (1 - blnd))

/-- GLSL blendAdd on one channel. -/
def addF (base blnd : ℝ) : ℝ := min (base + blnd) 1

/-- GLSL blendSubtract on one channel. -/
def subtractF (base blnd : ℝ) : ℝ := max (base + blnd - 1) 0

/-- GLSL blendOverlay on one channel. -/
def overlayF (base blnd : ℝ) : ℝ :=
  if base < 0.5 then 2 * base * blnd else 1 - 2 * (1 - base) * (1 - blnd)

/-- GLSL blendSoftLight on one channel. -/
def softLightF (base blnd : ℝ) : ℝ :=
  if blnd < 0.5 then 2 * base * blnd + base * base * (1 - 2 * blnd)
  else Real.sqrt base * (2 * blnd - 1) + 2 * base * (1 - blnd)

/-- GLSL blendColorDodge on one channel. -/
def colorDodgeF (base blnd : ℝ) : ℝ :=
  if blnd = 1 then blnd else min (base / (1 - blnd)) 1

/-- GLSL blendColorBurn on one channel. -/
def colorBurnF (base blnd : ℝ) : ℝ :=
  if blnd = 0 then blnd else max (1 - ((1 - base) / blnd)) 0

/-- GLSL blendDarken on one channel. -/
def darkenF (base blnd : ℝ) : ℝ := min blnd base

/-- GLSL blendLighten on one channel. -/
def lightenF (base blnd : ℝ) : ℝ := max blnd base

/-- GLSL blendNormal on vec3. -/
def blendNormalV (_base blnd : RGB) : RGB := blnd

/-- GLSL blendMultiply on vec3. -/
def blendMultiplyV (base blnd : RGB) : RGB :=
  ⟨base.r * blnd.r, base.g * blnd.g, base.b * blnd.b⟩

/-- GLSL blendDifference on vec3. -/
def blendDifferenceV (base blnd : RGB) : RGB :=
  ⟨|base.r - blnd.r|, |base.g - blnd.g|, |base.b - blnd.b|⟩

/-- GLSL blendExclusion on vec3. -/
def blendExclusionV (base blnd : RGB) : RGB :=
  ⟨base.r + blnd.r - 2 * base.r * blnd.r,
   base.g + blnd.g - 2 * base.g * blnd.g,
   base.b + blnd.b - 2 * base.b * blnd.b⟩

/-- GLSL blendHardLight on vec3: overlay with the arguments swapped. -/
def blendHardLightV (base blnd : RGB) : RGB := lift3 overlayF blnd base

/-- The opacity-mixing wrapper every GLSL blend function uses:
blended * opacity + base * (1 - opacity), channelwise. -/
def opacityMix (blended base : RGB) (opacity : ℝ) : RGB :=
  ⟨blended.r * opacity + base.r * (1 - opacity),
   blended.g * opacity + base.g * (1 - opacity),
   blended.b * opacity + base.b * (1 - opacity)⟩

/-- GLSL applyBlendMode: dispatch on the integer opcode (the chain of
equality tests on the int uniform, embedded as a case split on the literal
opcodes), falling back to NORMAL for an unknown opcode. -/
def applyBlendModeC (mode : ℕ) (base blnd : RGB) (opacity : ℝ) : RGB :=
  match mode with
  | 0 => opacityMix (blendNormalV base blnd) base opacity
  | 1 => opacityMix (blendMultiplyV base blnd) base opacity
  | 2 => opacityMix (lift3 screenF base blnd) base opacity
  | 3 => opacityMix (lift3 addF base blnd) base opacity
  | 4 => opacityMix (lift3 subtractF base blnd) base opacity
  | 5 => opacityMix (lift3 overlayF base blnd) base opacity
  | 6 => opacityMix (lift3 softLightF base blnd) base opacity
  | 7 => opacityMix (blendHardLightV base blnd) base opacity
  | 8 => opacityMix (lift3 colorDodgeF base blnd) base opacity
  | 9 => opacityMix (lift3 colorBurnF base blnd) base opacity
  | 10 => opacityMix (lift3 darkenF base blnd) base opacity
  | 11 => opacityMix (lift3 lightenF base blnd) base opacity
  | 12 => opacityMix (blendDifferenceV base blnd) base opacity
  | 13 => opacityMix (blendExclusionV base blnd) base opacity
  | _ => opacityMix (blendNormalV base blnd) base opacity

/-- The rgb part of an RGBA sample. -/
def RGBA.rgb (c : RGBA) : RGB := ⟨c.r, c.g, c.b⟩

/-- The fragment shader main function: one pixel of one composite pass.
Inputs are the sampled layer color, background (accumulator) color, the
layerOpacity uniform, and the sampled mask color when hasMask is set. -/
def fragMain (mode : ℕ) (layerColor bgColor : RGBA) (layerOpacity : ℝ)
    (mask : Option RGBA) : RGBA :=
  let finalOpacity :=
    match mask with
    | some m => layerColor.a * layerOpacity * m.r
    | none => layerColor.a * layerOpacity
  if finalOpacity ≤ 0 then bgColor
  else
    let blended := applyBlendModeC mode bgColor.rgb layerColor.rgb finalOpacity
    ⟨blended.r, blended.g, blended.b, 1⟩

/- ============ Spec-side shader definitions (from the claim wording) ===== -/

/-- Modelled from the spec: the per-opcode blend function table of spec
section 4.2, written from the claim wording, to be compared with the
shader source embedding. -/
def specApplyBlendFunction (mode : ℕ) (B L : RGB) : RGB :=
  match mode with
  | 0 => L
  | 1 => ⟨B.r * L.r, B.g * L.g, B.b * L.b⟩
  | 2 =>
    ⟨1 - (1 - B.r) * (1 - L.r), 1 - (1 - B.g) * (1 - L.g), 1 - (1 - B.b) * (1 - L.b)⟩
  | 3 =>
    ⟨min (B.r + L.r) 1, min (B.g + L.g) 1, min (B.b + L.b) 1⟩
  | 4 =>
    ⟨max (B.r + L.r - 1) 0, max (B.g + L.g - 1) 0, max (B.b + L.b - 1) 0⟩
  | 5 =>
    ⟨if B.r < 0.5 then 2 * B.r * L.r else 1 - 2 * (1 - B.r) * (1 - L.r),
     if B.g < 0.5 then 2 * B.g * L.g else 1 - 2 * (1 - B.g) * (1 - L.g),
     if B.b < 0.5 then 2 * B.b * L.b else 1 - 2 * (1 - B.b) * (1 - L.b)⟩
  | 6 =>
    ⟨if L.r < 0.5 then 2 * B.r * L.r + B.r ^ 2 * (1 - 2 * L.r)
       else Real.sqrt B.r * (2 * L.r - 1) + 2 * B.r * (1 - L.r),
     if L.g < 0.5 then 2 * B.g * L.g + B.g ^ 2 * (1 - 2 * L.g)
       else Real.sqrt B.g * (2 * L.g - 1) + 2 * B.g * (1 - L.g),
     if L.b < 0.5 then 2 * B.b * L.b + B.b ^ 2 * (1 - 2 * L.b)
       else Real.sqrt B.b * (2 * L.b - 1) + 2 * B.b * (1 - L.b)⟩
  | 7 =>
    ⟨if L.r < 0.5 then 2 * L.r * B.r else 1 - 2 * (1 - L.r) * (1 - B.r),
     if L.g < 0.5 then 2 * L.g * B.g else 1 - 2 * (1 - L.g) * (1 - B.g),
     if L.b < 0.5 then 2 * L.b * B.b else 1 - 2 * (1 - L.b) * (1 - B.b)⟩
  | 8 =>
    ⟨if L.r = 1 then L.r else min (B.r / (1 - L.r)) 1,
     if L.g = 1 then L.g else min (B.g / (1 - L.g)) 1,
     if L.b = 1 then L.b else min (B.b / (1 - L.b)) 1⟩
  | 9 =>
    ⟨if L.r = 0 then L.r else max (1 - (1 - B.r) / L.r) 0,
     if L.g = 0 then L.g else max (1 - (1 - B.g) / L.g) 0,
     if L.b = 0 then L.b else max (1 - (1 - B.b) / L.b) 0⟩
  | 10 => ⟨min B.r L.r, min B.g L.g, min B.b L.b⟩
  | 11 => ⟨max B.r L.r, max B.g L.g, max B.b L.b⟩
  | 12 => ⟨|B.r - L.r|, |B.g - L.g|, |B.b - L.b|⟩
  | 13 =>
    ⟨B.r + L.r - 2 * B.r * L.r, B.g + L.g - 2 * B.g * L.g, B.b + L.b - 2 * B.b * L.b⟩
  | _ => L

/-- GLSL mix(x, y, a) = x * (1 - a) + y * a, channelwise, as used in the
claim wording. -/
def glslMix (x y : RGB) (a : ℝ) : RGB :=
  ⟨x.r * (1 - a) + y.r * a, x.g * (1 - a) + y.g * a, x.b * (1 - a) + y.b * a⟩

/-- Modelled from the claim wording of C2, verbatim: in particular in the
alpha-not-positive branch the output is B with alpha forced to opaque. -/
def claimFragMain (mode : ℕ) (layerColor bgColor : RGBA) (layerOpacity : ℝ)
    (mask : Option RGBA) : RGBA :=
  let aeff := layerColor.a * layerOpacity * (match mask with | some m => m.r | none => 1)
  if aeff ≤ 0 then ⟨bgColor.r, bgColor.g, bgColor.b, 1⟩
  else
    let outRgb := glslMix (specApplyBlendFunction mode bgColor.rgb layerColor.rgb)
      bgColor.rgb (1 - aeff)
    ⟨outRgb.r, outRgb.g, outRgb.b, 1⟩

/-- The claim of C2 amended at its alpha-not-positive branch: there the
output is B fully unchanged, its alpha included. -/
def specFragAmended (mode : ℕ) (layerColor bgColor : RGBA) (layerOpacity : ℝ)
    (mask : Option RGBA) : RGBA :=
  let aeff := layerColor.a * layerOpacity * (match mask with | some m => m.r | none => 1)
  if aeff ≤ 0 then bgColor
  else
    let outRgb := glslMix (specApplyBlendFunction mode bgColor.rgb layerColor.rgb)
      bgColor.rgb (1 - aeff)
    ⟨outRgb.r, outRgb.g, outRgb.b, 1⟩

end

/- ===================== Data model (Layer, blend table) ================== -/

/-- Non-fatal diagnostics emitted on the console by the library. -/
inductive Diag where
  | unknownBlendMode
  | invalidBlendMode
  | invalidMaskSource
  | noFramebuffer
  | layerNotFound
  | noActiveLayer
  | alreadyActive
  | shaderUnavailable
  | shaderCompileFailed
  deriving DecidableEq, Repr

/-- Fatal errors: exceptions raised by the embedded code. -/
inductive Err where
  | framebufferCreateFailed
  | bufferAllocFailed
  deriving DecidableEq, Repr

/-- The host p5 canvas as seen by the library: width, height and pixel
density. -/
structure Canvas where
  width : ℚ
  height : ℚ
  density : ℚ
  deriving DecidableEq, Repr

/-- Environment of the host primitives on which the code can fail: whether
p5.createFramebuffer succeeds and whether p5.createShader succeeds. -/
structure Env where
  allocOk : Bool
  shaderOk : Bool
  deriving DecidableEq, Repr

/-- A p5.Framebuffer handle, carrying the dimensions it was allocated at. -/
structure Framebuffer where
  width : ℚ
  height : ℚ
  density : ℚ
  deriving DecidableEq, Repr

/-- p5.createFramebuffer: yields a buffer at the requested size, or fails
(the JS code observes the failure as an exception or a null return). -/
def createFramebufferM (env : Env) (w h d : ℚ) : Option Framebuffer :=
  if env.allocOk then some ⟨w, h, d⟩ else none

/-- The values of the BlendModes constant object, in declaration order. -/
def blendModeNames : List String :=
  ["NORMAL", "MULTIPLY", "SCREEN", "ADD", "SUBTRACT", "OVERLAY",
   "SOFT_LIGHT", "HARD_LIGHT", "COLOR_DODGE", "COLOR_BURN", "DARKEN",
   "LIGHTEN", "DIFFERENCE", "EXCLUSION"]

/-- getBlendModeIndex: the switch mapping a blend mode value to its shader
opcode, warning and returning 0 on an unknown mode. -/
def getBlendModeIndex (mode : String) : ℕ × List Diag :=
  if mode = "NORMAL" then (0, [])
  else if mode = "MULTIPLY" then (1, [])
  else if mode = "SCREEN" then (2, [])
  else if mode = "ADD" then (3, [])
  else if mode = "SUBTRACT" then (4, [])
  else if mode = "OVERLAY" then (5, [])
  else if mode = "SOFT_LIGHT" then (6, [])
  else if mode = "HARD_LIGHT" then (7, [])
  else if mode = "COLOR_DODGE" then (8, [])
  else if mode = "COLOR_BURN" then (9, [])
  else if mode = "DARKEN" then (10, [])
  else if mode = "LIGHTEN" then (11, [])
  else if mode = "DIFFERENCE" then (12, [])
  else if mode = "EXCLUSION" then (13, [])
  else (0, [Diag.unknownBlendMode])

/-- A Layer: display attributes plus its owned framebuffer. A mask is an
opaque handle to an external image resource. -/
structure Layer where
  id : ℕ
  name : String
  visible : Bool
  opacity : ℚ
  blendMode : String
  zIndex : ℚ
  width : ℚ
  height : ℚ
  density : ℚ
  depth : Bool
  antialias : Bool
  customSize : Bool
  mask : Option ℕ
  hasBeenDrawnTo : Bool
  framebuffer : Option Framebuffer
  deriving DecidableEq, Repr

/-- Layer creation options; a none field stands for an absent (or null)
option, as in DEFAULT_LAYER_OPTIONS. -/
structure LayerOptions where
  visible : Option Bool := none
  opacity : Option ℚ := none
  blendMode : Option String := none
  width : Option ℚ := none
  height : Option ℚ := none
  density : Option ℚ := none
  depth : Option Bool := none
  antialias : Option Bool := none
  zIndex : Option ℚ := none
  deriving DecidableEq, Repr

/-- Layer._clampOpacity: clamp to the range from 0 to 1. -/
def clampOpacity (v : ℚ) : ℚ := max 0 (min 1 v)

/-- The Layer constructor. Merges the options with the defaults, stores the
blendMode option verbatim, defaults zIndex to the id, defaults sizing to
the canvas, sets customSize iff any sizing option was given, and allocates
the framebuffer, throwing when that fails. -/
def mkLayer (env : Env) (canvas : Canvas) (id : ℕ) (name : String)
    (o : LayerOptions) : Except Err Layer :=
  let layerName := if name = "" then "Layer " ++ toString id else name
  let w := o.width.getD canvas.width
  let h := o.height.getD canvas.height
  let d := o.density.getD canvas.density
  match createFramebufferM env w h d with
  | none => Except.error Err.framebufferCreateFailed
  | some fb =>
    Except.ok
      { id := id
        name := layerName
        visible := o.visible.getD true
        opacity := clampOpacity (o.opacity.getD 1)
        blendMode := o.blendMode.getD "NORMAL"
        zIndex := o.zIndex.getD id
        width := w
        height := h
        density := d
        depth := o.depth.getD false
        antialias := o.antialias.getD false
        customSize := o.width.isSome || o.height.isSome || o.density.isSome
        mask := none
        hasBeenDrawnTo := false
        framebuffer := some fb }

/-- Layer.show. -/
def Layer.showL (l : Layer) : Layer := { l with visible := true }

/-- Layer.hide. -/
def Layer.hideL (l : Layer) : Layer := { l with visible := false }

/-- Layer.setOpacity: stores the clamped value. -/
def Layer.setOpacityL (l : Layer) (v : ℚ) : Layer :=
  { l with opacity := clampOpacity v }

/-- Layer.setBlendMode: stores a recognized mode, else NORMAL with a
diagnostic. -/
def Layer.setBlendModeL (l : Layer) (mode : String) : Layer × List Diag :=
  if mode ∈ blendModeNames then ({ l with blendMode := mode }, [])
  else ({ l with blendMode := "NORMAL" }, [Diag.invalidBlendMode])

/-- Layer.setZIndex: stores the value verbatim. -/
def Layer.setZIndexL (l : Layer) (z : ℚ) : Layer := { l with zIndex := z }

/-- Layer.setMask: a null source is a no-op with a diagnostic. -/
def Layer.setMaskL (l : Layer) (src : Option ℕ) : Layer × List Diag :=
  match src with
  | none => (l, [Diag.invalidMaskSource])
  | some m => ({ l with mask := some m }, [])

/-- Layer.clearMask. -/
def Layer.clearMaskL (l : Layer) : Layer := { l with mask := none }

/-- Layer.resize: stores the new dimensions, recomputes customSize against
the current canvas, disposes the old framebuffer and allocates a new one. -/
def Layer.resizeL (env : Env) (canvas : Canvas) (l : Layer) (w h d : ℚ) :
    Layer :=
  let matchesCanvas :=
    w = canvas.width ∧ h = canvas.height ∧ d = canvas.density
  { l with
    width := w
    height := h
    density := d
    customSize := ¬matchesCanvas
    framebuffer := createFramebufferM env w h d }

/-- Layer.begin: only a diagnostic when the framebuffer is absent; the
actual redirection of drawing is an external effect. -/
def Layer.beginL (l : Layer) : List Diag :=
  match l.framebuffer with
  | none => [Diag.noFramebuffer]
  | some _ => []

/-- Layer.end: marks hasBeenDrawnTo, or only diagnoses when the framebuffer
is absent. -/
def Layer.endL (l : Layer) : Layer × List Diag :=
  match l.framebuffer with
  | none => (l, [Diag.noFramebuffer])
  | some _ => ({ l with hasBeenDrawnTo := true }, [])

/-- Layer.dispose: releases the framebuffer and nulls the reference. -/
def Layer.disposeL (l : Layer) : Layer := { l with framebuffer := none }

/- ===================== Association-list maps (JS Map) =================== -/

/-- JS Map get: the value at the first matching key. -/
def mapGet {α β : Type} [DecidableEq α] (m : List (α × β)) (k : α) :
    Option β :=
  (m.find? (fun p => p.1 = k)).map Prod.snd

/-- JS Map set: overwrite in place when the key is present, else append. -/
def mapSet {α β : Type} [DecidableEq α] (m : List (α × β)) (k : α) (v : β) :
    List (α × β) :=
  if (m.find? (fun p => p.1 = k)).isSome then
    m.map (fun p => if p.1 = k then (k, v) else p)
  else m ++ [(k, v)]

/-- JS Map delete: remove the key. -/
def mapDelete {α β : Type} [DecidableEq α] (m : List (α × β)) (k : α) :
    List (α × β) :=
  m.filter (fun p => ¬p.1 = k)

/- ===================== Compositor embedding ============================ -/

/-- The content of an accumulation buffer, recorded as the trace of
composite passes that produced it: either the initial clear, or one blend
pass of a layer over a background. Per-pixel semantics of one pass are the
fragment shader embedding fragMain. -/
inductive Image where
  | clear : Image
  | pass : Layer → Image → Image
  deriving DecidableEq, Repr

/-- Compositor state: the lazily compiled shader, the shaderLoaded flag,
the two ping-pong buffers and the density they were allocated at. -/
structure CompState where
  shader : Option Unit
  shaderLoaded : Bool
  bufferA : Option Framebuffer
  bufferB : Option Framebuffer
  bufferDensity : Option ℚ
  deriving DecidableEq, Repr

/-- A Compositor as freshly constructed. -/
def compInit : CompState :=
  { shader := none, shaderLoaded := false, bufferA := none, bufferB := none,
    bufferDensity := none }

/-- Compositor._ensureShader: lazily compile the blend program; on compile
failure log and leave the shader unset. Returns the updated state and the
shader (null when unavailable). -/
def ensureShader (env : Env) (cs : CompState) :
    CompState × Option Unit × List Diag :=
  if cs.shaderLoaded then (cs, cs.shader, [])
  else if env.shaderOk then
    ({ cs with shader := some (), shaderLoaded := true }, some (), [])
  else (cs, cs.shader, [Diag.shaderCompileFailed])

/-- Compositor._ensureBuffers: reallocate both ping-pong buffers whenever
the observed canvas width, height or density differs from the last
allocation. Allocation failure is not caught in the source: the false
flag stands for the exception escaping. -/
def ensureBuffers (env : Env) (cs : CompState) (canvas : Canvas) :
    CompState × Bool :=
  let needsResize :=
    cs.bufferA = none ∨
    (cs.bufferA.map Framebuffer.width ≠ some canvas.width) ∨
    (cs.bufferA.map Framebuffer.height ≠ some canvas.height) ∨
    cs.bufferDensity ≠ some canvas.density
  if needsResize then
    match createFramebufferM env canvas.width canvas.height canvas.density with
    | none => (cs, false)
    | some fb =>
      ({ cs with
          bufferA := some fb
          bufferB := some fb
          bufferDensity := some canvas.density }, true)
  else (cs, true)

/-- Compositor._renderLayer: what one call leaves in the target buffer
(which render() has just cleared). Skips — leaving the clear — when the
layer is invisible or fully transparent, has no framebuffer, or the shader
is unavailable; otherwise draws the full-screen blend pass of the layer
over the background buffer. -/
def renderLayerInto (env : Env) (cs : CompState) (l : Layer) (bg : Image) :
    CompState × Image :=
  if ¬l.visible ∨ l.opacity ≤ 0 then (cs, Image.clear)
  else if l.framebuffer = none then (cs, Image.clear)
  else
    match ensureShader env cs with
    | (cs1, none, _) => (cs1, Image.clear)
    | (cs1, some _, _) => (cs1, Image.pass l bg)

/-- One iteration of the render loop of Compositor.render: skip the layer
when invisible or fully transparent; otherwise clear the next buffer,
composite into it, and swap so it becomes the accumulator. -/
def renderStep (env : Env) (acc : CompState × Image) (l : Layer) :
    CompState × Image :=
  if ¬l.visible ∨ l.opacity ≤ 0 then acc
  else renderLayerInto env acc.1 l acc.2

/-- Insert a layer after every already-placed layer of less or equal
zIndex. -/
def insertLayer (l : Layer) : List Layer → List Layer
  | [] => [l]
  | x :: xs =>
    if x.zIndex ≤ l.zIndex then x :: insertLayer l xs else l :: x :: xs

/-- The ascending stable sort by zIndex used on the layer list (JS
Array.prototype.sort with the zIndex difference comparator). -/
def sortLayers (ls : List Layer) : List Layer :=
  ls.foldl (fun acc l => insertLayer l acc) []

/-- Compositor.render: ensure the ping-pong buffers (allocation failure
escapes as an exception), sort the layers ascending by zIndex, clear the
first accumulator, run the ping-pong loop, and blit the final accumulator
to the main canvas — the returned Image. -/
def compRender (env : Env) (cs : CompState) (canvas : Canvas)
    (layers : List Layer) : CompState × Except Err Image :=
  let eb := ensureBuffers env cs canvas
  if eb.2 then
    let sorted := sortLayers layers
    let res := sorted.foldl (renderStep env) (eb.1, Image.clear)
    (res.1, Except.ok res.2)
  else (eb.1, Except.error Err.bufferAllocFailed)

/-- Compositor.dispose: release both buffers and drop the shader. -/
def compDispose (_cs : CompState) : CompState :=
  { shader := none, shaderLoaded := false, bufferA := none, bufferB := none,
    bufferDensity := none }

/- ===================== LayerSystem embedding =========================== -/

/-- A layer reference: a numeric id or a string name. -/
inductive Ref where
  | byId : ℕ → Ref
  | byName : String → Ref
  deriving DecidableEq, Repr

/-- LayerSystem state: the id-to-Layer map, the name-to-id map, the id
counter, the active layer id, the auto-resize flag, the last observed
canvas metrics, and the owned Compositor. -/
structure SysState where
  layers : List (ℕ × Layer)
  layerNames : List (String × ℕ)
  layerIdCounter : ℕ
  activeLayerId : Option ℕ
  autoResize : Bool
  lastCanvasWidth : ℚ
  lastCanvasHeight : ℚ
  lastPixelDensity : ℚ
  comp : CompState
  deriving DecidableEq, Repr

/-- LayerSystem._getLayerById: numeric ids look up the layer map directly;
strings go through the name map first. -/
def resolveRef (layers : List (ℕ × Layer)) (names : List (String × ℕ)) :
    Ref → Option Layer
  | Ref.byId n => mapGet layers n
  | Ref.byName s =>
    match mapGet names s with
    | some i => mapGet layers i
    | none => none

/-- Resolution against a system state. -/
def resolveS (s : SysState) (r : Ref) : Option Layer :=
  resolveRef s.layers s.layerNames r

/-- LayerSystem.createLayer: allocate the next id, construct the Layer
(defaulting zIndex to the id), store it and register its name. A Layer
construction failure escapes. -/
def createLayerS (env : Env) (canvas : Canvas) (name : String)
    (o : LayerOptions) (s : SysState) : Except Err (SysState × Layer) :=
  let id := s.layerIdCounter
  let layerName := if name = "" then "Layer " ++ toString id else name
  match mkLayer env canvas id layerName
      { o with zIndex := some (o.zIndex.getD id) } with
  | Except.error e => Except.error e
  | Except.ok layer =>
    let withLayer := mapSet s.layers id layer
    let withName :=
      if layerName = "" then s.layerNames
      else mapSet s.layerNames layerName id
    Except.ok
      ({ s with
          layers := withLayer
          layerNames := withName
          layerIdCounter := id + 1 }, layer)

/-- LayerSystem.end: no-op with a diagnostic when nothing is active; else
end the active layer (when still present) and clear the active state. -/
def endSysS (s : SysState) : SysState × List Diag :=
  match s.activeLayerId with
  | none => (s, [Diag.noActiveLayer])
  | some aid =>
    match mapGet s.layers aid with
    | none => ({ s with activeLayerId := none }, [])
    | some l =>
      let el := Layer.endL l
      ({ s with
          layers := mapSet s.layers aid el.1
          activeLayerId := none }, el.2)

/-- LayerSystem.begin: when a layer is already active, warn and force-end
it first; then resolve the reference — a missing reference is an error
diagnostic and no further change — and otherwise begin the resolved layer
and record it active. -/
def beginSysS (s : SysState) (r : Ref) : SysState × List Diag :=
  let pre :=
    if s.activeLayerId.isSome then
      let ed := endSysS s
      (ed.1, Diag.alreadyActive :: ed.2)
    else (s, [])
  match resolveS pre.1 r with
  | none => (pre.1, pre.2 ++ [Diag.layerNotFound])
  | some l =>
    ({ pre.1 with activeLayerId := some l.id }, pre.2 ++ Layer.beginL l)

/-- LayerSystem.removeLayer: resolve; force-end when removing the active
layer; unregister the name, dispose the layer and delete it from the map. -/
def removeLayerS (s : SysState) (r : Ref) : SysState × List Diag :=
  match resolveS s r with
  | none => (s, [Diag.layerNotFound])
  | some layer =>
    let s1 :=
      if s.activeLayerId = some layer.id then (endSysS s).1 else s
    let names1 :=
      if layer.name = "" then s1.layerNames
      else mapDelete s1.layerNames layer.name
    let layers1 := mapSet s1.layers layer.id (Layer.disposeL layer)
    ({ s1 with
        layerNames := names1
        layers := mapDelete layers1 layer.id }, [])

/-- LayerSystem.getLayer. -/
def getLayerS (s : SysState) (r : Ref) : Option Layer := resolveS s r

/-- LayerSystem.getLayers: the layer collection in map insertion order,
sorted ascending by zIndex. -/
def getLayersS (s : SysState) : List Layer :=
  sortLayers (s.layers.map Prod.snd)

/-- LayerSystem._checkResize: when the observed canvas metrics differ from
the last observed ones, record the new metrics and resize every layer not
flagged customSize to them. -/
def checkResizeS (env : Env) (canvas : Canvas) (s : SysState) : SysState :=
  if canvas.width = s.lastCanvasWidth ∧ canvas.height = s.lastCanvasHeight ∧
      canvas.density = s.lastPixelDensity then s
  else
    { s with
      lastCanvasWidth := canvas.width
      lastCanvasHeight := canvas.height
      lastPixelDensity := canvas.density
      layers := s.layers.map (fun p =>
        if p.2.customSize then p
        else (p.1, Layer.resizeL env canvas p.2 canvas.width canvas.height
          canvas.density)) }

/-- LayerSystem.render: optional auto-resize check, then composite the
sorted layer list through the Compositor (whose buffer-allocation
exception escapes). -/
def sysRender (env : Env) (canvas : Canvas) (s : SysState) :
    SysState × Except Err Image :=
  let s1 := if s.autoResize then checkResizeS env canvas s else s
  let res := compRender env s1.comp canvas (getLayersS s1)
  ({ s1 with comp := res.1 }, res.2)

/-- LayerSystem.setAutoResize. -/
def setAutoResizeS (s : SysState) (b : Bool) : SysState :=
  { s with autoResize := b }

/-- LayerSystem.dispose: end the active layer if any, dispose every layer,
clear the layer map, and dispose the Compositor. -/
def sysDisposeS (s : SysState) : SysState :=
  let s1 := if s.activeLayerId.isSome then (endSysS s).1 else s
  let disposed := s1.layers.map (fun p => (p.1, Layer.disposeL p.2))
  let s2 := { s1 with layers := disposed }
  { s2 with layers := [], comp := compDispose s2.comp }

/- ===================== Spec-side compositing definitions ================ -/

/-- Modelled from the claim wording of C1: one fold step — a layer that is
visible with positive opacity is composited over the accumulator by one
blend pass, any other layer contributes nothing. -/
def specStep (acc : Image) (l : Layer) : Image :=
  if l.visible ∧ 0 < l.opacity then Image.pass l acc else acc

/-- Modelled from the claim wording of C1: the composite as a left fold of
the layers sorted ascending by zIndex, from a cleared accumulator. -/
def renderSpecImage (layers : List Layer) : Image :=
  (sortLayers layers).foldl specStep Image.clear

/- ===================== Concrete fixtures for witnesses ================== -/

/-- A small host canvas. -/
def testCanvas : Canvas := ⟨4, 3, 1⟩

/-- A host environment where allocation and shader compilation succeed. -/
def testEnv : Env := ⟨true, true⟩

/-- A simple canvas-synced test layer. -/
def testLayer (id : ℕ) (z : ℚ) : Layer :=
  ⟨id, "L" ++ toString id, true, 1, "NORMAL", z, 4, 3, 1, false, false, false,
   none, false, some ⟨4, 3, 1⟩⟩

/-- A hidden test layer. -/
def testLayerHidden : Layer := { testLayer 2 2 with visible := false }

/-- A test layer with a custom size. -/
def testLayerCustom : Layer :=
  { testLayer 1 1 with customSize := true, width := 10 }

/-- A small system with two layers and nothing active. -/
def testSys : SysState :=
  ⟨[(0, testLayer 0 0), (1, testLayer 1 1)], [("a", 0), ("b", 1)], 2, none,
   true, 4, 3, 1, compInit⟩

/-- The same system with layer 0 active. -/
def testSysActive : SysState := { testSys with activeLayerId := some 0 }

/-- A system with one canvas-synced and one custom-size layer. -/
def testSysMixed : SysState :=
  ⟨[(0, testLayer 0 0), (1, testLayerCustom)], [("a", 0), ("b", 1)], 2, none,
   true, 4, 3, 1, compInit⟩

/-- Default creation options. -/
def dupOpts : LayerOptions := {}

/-- First creation of a layer named dup on the test system. -/
def dupRes1 : Except Err (SysState × Layer) :=
  createLayerS testEnv testCanvas "dup" dupOpts testSys

/-- The system after the first dup creation. -/
def dupS1 : SysState := (dupRes1.toOption.map Prod.fst).getD testSys

/-- The first layer named dup. -/
def dupLa : Layer := (dupRes1.toOption.map Prod.snd).getD (testLayer 0 0)

/-- Second creation of a layer named dup. -/
def dupRes2 : Except Err (SysState × Layer) :=
  createLayerS testEnv testCanvas "dup" dupOpts dupS1

/-- The system after the second dup creation. -/
def dupS2 : SysState := (dupRes2.toOption.map Prod.fst).getD testSys

/-- The second layer named dup. -/
def dupLb : Layer := (dupRes2.toOption.map Prod.snd).getD (testLayer 0 0)

/- ===================== Association-list map lemmas ====================== -/

theorem mapGet_cons {α β : Type} [DecidableEq α] (p : α × β)
    (m : List (α × β)) (k : α) :
    mapGet (p :: m) k = if p.1 = k then some p.2 else mapGet m k := by
  unfold mapGet
  by_cases h : p.1 = k
  · rw [List.find?_cons_of_pos _ (by simp [h]), if_pos h]
    rfl
  · rw [List.find?_cons_of_neg _ (by simp [h]), if_neg h]

theorem mapGet_map_replace {α β : Type} [DecidableEq α] (k : α) (v : β)
    (k2 : α) :
    ∀ m : List (α × β),
      mapGet (m.map (fun p => if p.1 = k then (k, v) else p)) k2 =
        if k2 = k then (if (mapGet m k).isSome then some v else none)
        else mapGet m k2
  | [] => by simp [mapGet]
  | p :: m => by
    have ih := mapGet_map_replace k v k2 m
    by_cases hp : p.1 = k
    · by_cases h2 : k2 = k
      · subst h2
        simp [List.map_cons, hp, mapGet_cons]
      · have hk : ¬(k = k2) := fun hh => h2 hh.symm
        have hpk2 : ¬(p.1 = k2) := by rw [hp]; exact hk
        simp [List.map_cons, hp, mapGet_cons, hk, hpk2, h2, ih]
    · by_cases h2 : k2 = k
      · subst h2
        have hpk2 : ¬(p.1 = k2) := hp
        simp [List.map_cons, hp, mapGet_cons, hpk2, ih]
      · by_cases hpk2 : p.1 = k2
        · rw [List.map_cons, if_neg hp, mapGet_cons, if_pos hpk2, if_neg h2,
            mapGet_cons, if_pos hpk2]
        · rw [List.map_cons, if_neg hp, mapGet_cons, if_neg hpk2, ih,
            if_neg h2, if_neg h2, mapGet_cons, if_neg hpk2]

theorem mapGet_append_one {α β : Type} [DecidableEq α] (k : α) (v : β)
    (k2 : α) :
    ∀ m : List (α × β),
      mapGet (m ++ [(k, v)]) k2 =
        match mapGet m k2 with
        | some w => some w
        | none => if k2 = k then some v else none
  | [] => by
    by_cases h : k2 = k
    · subst h; simp [mapGet_cons, mapGet]
    · have hk : ¬(k = k2) := fun hh => h hh.symm
      simp [mapGet_cons, mapGet, hk, h]
  | p :: m => by
    have ih := mapGet_append_one k v k2 m
    by_cases hp : p.1 = k2
    · simp [List.cons_append, mapGet_cons, hp]
    · simp [List.cons_append, mapGet_cons, hp, ih]

theorem mapGet_mapSet {α β : Type} [DecidableEq α] (m : List (α × β))
    (k : α) (v : β) (k2 : α) :
    mapGet (mapSet m k v) k2 = if k2 = k then some v else mapGet m k2 := by
  unfold mapSet
  by_cases hf : (m.find? (fun p => p.1 = k)).isSome
  · rw [if_pos hf, mapGet_map_replace]
    have hks : (mapGet m k).isSome := by
      unfold mapGet
      rcases hh : m.find? (fun p => p.1 = k) with _ | q
      · rw [hh] at hf; simp at hf
      · rw [hh]; rfl
    simp [hks]
  · rw [if_neg hf, mapGet_append_one]
    have hnone : mapGet m k = none := by
      unfold mapGet
      rcases hh : m.find? (fun p => p.1 = k) with _ | q
      · rw [hh]; rfl
      · rw [hh] at hf; simp at hf
    by_cases h2 : k2 = k
    · subst h2; rw [hnone]
    · rcases hg : mapGet m k2 with _ | w <;> simp [h2]

theorem mapDelete_cons {α β : Type} [DecidableEq α] (p : α × β)
    (m : List (α × β)) (k : α) :
    mapDelete (p :: m) k =
      if p.1 = k then mapDelete m k else p :: mapDelete m k := by
  unfold mapDelete
  by_cases hp : p.1 = k <;> simp [List.filter_cons, hp]

theorem mapGet_mapDelete {α β : Type} [DecidableEq α] (k k2 : α) :
    ∀ m : List (α × β),
      mapGet (mapDelete m k) k2 = if k2 = k then none else mapGet m k2
  | [] => by simp [mapDelete, mapGet]
  | p :: m => by
    have ih := mapGet_mapDelete k k2 m
    rw [mapDelete_cons]
    by_cases hp : p.1 = k
    · by_cases h2 : k2 = k
      · rw [if_pos hp, ih, if_pos h2, if_pos h2]
      · have hpk2 : ¬(p.1 = k2) := by
          rw [hp]; exact fun hh => h2 hh.symm
        rw [if_pos hp, ih, if_neg h2, if_neg h2, mapGet_cons, if_neg hpk2]
    · by_cases h2 : k2 = k
      · subst h2
        have hpk2 : ¬(p.1 = k2) := hp
        rw [if_neg hp, mapGet_cons, if_neg hpk2, ih, if_pos rfl, if_pos rfl]
      · by_cases hpk2 : p.1 = k2
        · rw [if_neg hp, mapGet_cons, if_pos hpk2, if_neg h2, mapGet_cons,
            if_pos hpk2]
        · rw [if_neg hp, mapGet_cons, if_neg hpk2, ih, if_neg h2, if_neg h2,
            mapGet_cons, if_neg hpk2]

theorem mapGet_mem {α β : Type} [DecidableEq α] {m : List (α × β)} {k : α}
    {v : β} (h : mapGet m k = some v) : (k, v) ∈ m := by
  unfold mapGet at h
  rcases hf : m.find? (fun p => p.1 = k) with _ | q
  · rw [hf] at h; cases h
  · rw [hf] at h
    have hq := List.find?_some hf
    have hm := List.mem_of_find?_eq_some hf
    obtain ⟨q1, q2⟩ := q
    simp only [Option.map_some', Option.some.injEq] at h
    simp only [decide_eq_true_eq] at hq
    subst hq
    subst h
    exact hm

/- ===================== Sorting lemmas =================================== -/

theorem mem_insertLayer (l x : Layer) :
    ∀ ys : List Layer, x ∈ insertLayer l ys ↔ x = l ∨ x ∈ ys
  | [] => by simp [insertLayer]
  | y :: ys => by
    have ih := mem_insertLayer l x ys
    by_cases h : y.zIndex ≤ l.zIndex
    · simp [insertLayer, h, ih]
      tauto
    · simp [insertLayer, h]

theorem mem_foldl_insert (x : Layer) :
    ∀ (ls acc : List Layer),
      x ∈ ls.foldl (fun acc l => insertLayer l acc) acc ↔ x ∈ acc ∨ x ∈ ls
  | [], acc => by simp
  | l :: ls, acc => by
    have ih := mem_foldl_insert x ls (insertLayer l acc)
    simp only [List.foldl_cons] at ih ⊢
    rw [ih, mem_insertLayer]
    simp
    tauto

theorem mem_sortLayers (x : Layer) (ls : List Layer) :
    x ∈ sortLayers ls ↔ x ∈ ls := by
  unfold sortLayers
  rw [mem_foldl_insert]
  simp

/- ===================== Claim theorems ================================== -/

theorem opacityMix_eq_glslMix (c d B : RGB) (a : ℝ) (h : c = d) :
    opacityMix c B a = glslMix d B (1 - a) := by
  subst h
  apply RGB.ext <;> simp only [opacityMix, glslMix] <;> ring

theorem applyBlendModeC_eq_spec (mode : ℕ) (B L : RGB) (a : ℝ) :
    applyBlendModeC mode B L a =
      glslMix (specApplyBlendFunction mode B L) B (1 - a) := by
  by_cases hlt : mode < 14
  · interval_cases mode
    · exact opacityMix_eq_glslMix _ _ _ _ rfl
    · exact opacityMix_eq_glslMix _ _ _ _ rfl
    · exact opacityMix_eq_glslMix _ _ _ _ rfl
    · exact opacityMix_eq_glslMix _ _ _ _ rfl
    · exact opacityMix_eq_glslMix _ _ _ _ rfl
    · exact opacityMix_eq_glslMix _ _ _ _ rfl
    · -- SOFT_LIGHT: base * base in the shader, B ^ 2 in the spec table
      refine opacityMix_eq_glslMix _ _ _ _ ?_
      apply RGB.ext <;> simp only [lift3, softLightF, specApplyBlendFunction] <;>
        split_ifs <;> ring
    · exact opacityMix_eq_glslMix _ _ _ _ rfl
    · exact opacityMix_eq_glslMix _ _ _ _ rfl
    · exact opacityMix_eq_glslMix _ _ _ _ rfl
    · -- DARKEN: min blnd base in the shader, min B L in the spec table
      refine opacityMix_eq_glslMix _ _ _ _ ?_
      apply RGB.ext <;> simp only [lift3, darkenF, specApplyBlendFunction, min_comm]
    · -- LIGHTEN: max blnd base in the shader, max B L in the spec table
      refine opacityMix_eq_glslMix _ _ _ _ ?_
      apply RGB.ext <;> simp only [lift3, lightenF, specApplyBlendFunction, max_comm]
    · exact opacityMix_eq_glslMix _ _ _ _ rfl
    · exact opacityMix_eq_glslMix _ _ _ _ rfl
  · obtain ⟨k, rfl⟩ : ∃ k, mode = k + 14 := ⟨mode - 14, by omega⟩
    exact opacityMix_eq_glslMix _ _ _ _ rfl

/-- C8: getBlendModeIndex maps the 14 declared BlendModes entries
injectively onto the integers 0 through 13 in declaration order, and any
undeclared input yields opcode 0 with a non-fatal diagnostic. -/
theorem c8_opcode_table :
    (blendModeNames.map (fun m => (getBlendModeIndex m).1) =
      [0, 1, 2, 3, 4, 5, 6, 7, 8, 9, 10, 11, 12, 13]) ∧
    (blendModeNames.map (fun m => (getBlendModeIndex m).1)).Nodup ∧
    ∀ s : String, s ∉ blendModeNames →
      getBlendModeIndex s = (0, [Diag.unknownBlendMode]) := by
  refine ⟨by rfl, ?_, ?_⟩
  · rw [show blendModeNames.map (fun m => (getBlendModeIndex m).1) =
      [0, 1, 2, 3, 4, 5, 6, 7, 8, 9, 10, 11, 12, 13] from rfl]
    decide
  · intro s hs
    simp only [blendModeNames, List.mem_cons, List.not_mem_nil, or_false,
      not_or] at hs
    obtain ⟨h1, h2, h3, h4, h5, h6, h7, h8, h9, h10, h11, h12, h13, h14⟩ := hs
    simp only [getBlendModeIndex, if_neg h1, if_neg h2, if_neg h3, if_neg h4,
      if_neg h5, if_neg h6, if_neg h7, if_neg h8, if_neg h9, if_neg h10,
      if_neg h11, if_neg h12, if_neg h13, if_neg h14]

/-- Witness for C8 at the concrete undeclared mode GLOW. -/
theorem c8_opcode_table_witness :
    getBlendModeIndex "GLOW" = (0, [Diag.unknownBlendMode]) :=
  c8_opcode_table.2.2 "GLOW" (by decide)

/-- C9: dispose is idempotent on Layer, Compositor and LayerSystem: a
second call raises nothing (the embedded operations are total) and leaves
the state of the first call unchanged. -/
theorem c9_dispose_idempotent :
    (∀ l : Layer, Layer.disposeL (Layer.disposeL l) = Layer.disposeL l) ∧
    (∀ cs : CompState, compDispose (compDispose cs) = compDispose cs) ∧
    (∀ s : SysState, sysDisposeS (sysDisposeS s) = sysDisposeS s) := by
  refine ⟨fun l => rfl, fun cs => rfl, fun s => ?_⟩
  rcases h : s.activeLayerId with _ | aid
  · simp [sysDisposeS, h, compDispose]
  · rcases hm : mapGet s.layers aid with _ | l <;>
      simp [sysDisposeS, endSysS, h, hm, compDispose]

/-- C7 (amended): setBlendMode stores a recognized mode as given and falls
back to NORMAL with a diagnostic on any unrecognized mode; the blendMode
creation option, however, is stored verbatim by the constructor without
validation. -/
theorem c7_blend_mode_validation :
    (∀ (l : Layer) (m : String), m ∈ blendModeNames →
      Layer.setBlendModeL l m = ({ l with blendMode := m }, [])) ∧
    (∀ (l : Layer) (m : String), m ∉ blendModeNames →
      Layer.setBlendModeL l m =
        ({ l with blendMode := "NORMAL" }, [Diag.invalidBlendMode])) ∧
    (∀ (env : Env) (canvas : Canvas) (id : ℕ) (name : String)
      (o : LayerOptions) (m : String) (l : Layer), o.blendMode = some m →
      mkLayer env canvas id name o = Except.ok l → l.blendMode = m) := by
  refine ⟨?_, ?_, ?_⟩
  · intro l m hm
    simp [Layer.setBlendModeL, hm]
  · intro l m hm
    simp [Layer.setBlendModeL, hm]
  · intro env canvas id name o m l hbm hk
    simp only [mkLayer] at hk
    rcases hcf : createFramebufferM env (o.width.getD canvas.width)
        (o.height.getD canvas.height) (o.density.getD canvas.density)
      with _ | fb <;> rw [hcf] at hk
    · simp at hk
    · simp only [Except.ok.injEq] at hk
      subst hk
      simp [hbm]

/-- Counterexample to C7 as stated: an unrecognized blendMode creation
option is stored verbatim by the Layer constructor, not replaced by
NORMAL. -/
theorem c7_counterexample :
    (mkLayer testEnv testCanvas 0 "x"
        { blendMode := some "BOGUS" }).map Layer.blendMode =
      Except.ok "BOGUS" ∧ "BOGUS" ≠ "NORMAL" :=
  ⟨rfl, by decide⟩

/-- Witness for C7 amended at a concrete invalid setBlendMode call. -/
theorem c7_blend_mode_validation_witness :
    Layer.setBlendModeL (testLayer 0 0) "BOGUS" =
      ({ testLayer 0 0 with blendMode := "NORMAL" },
       [Diag.invalidBlendMode]) :=
  c7_blend_mode_validation.2.1 (testLayer 0 0) "BOGUS" (by decide)

/-- C2 (amended): one blend pass computes per pixel the claimed formula —
effective alpha from layer alpha, layer opacity and the mask red channel;
mix of the section 4.2 blend table against the background by that alpha
with output alpha forced to 1 — except that in the alpha-not-positive
branch the output is the background fully unchanged (its alpha preserved,
not forced opaque). -/
theorem c2_fragMain_spec (mode : ℕ) (layerColor bgColor : RGBA)
    (layerOpacity : ℝ) (mask : Option RGBA) :
    fragMain mode layerColor bgColor layerOpacity mask =
      specFragAmended mode layerColor bgColor layerOpacity mask := by
  cases mask with
  | none =>
    simp only [fragMain, specFragAmended, mul_one]
    split_ifs with h
    · rfl
    · rw [applyBlendModeC_eq_spec]
  | some mcol =>
    simp only [fragMain, specFragAmended]
    split_ifs with h
    · rfl
    · rw [applyBlendModeC_eq_spec]

/-- Counterexample to C2 as stated: with a fully transparent layer over a
background sample of alpha 0, the shader outputs that background with
alpha 0, not alpha forced to opaque as the claim states. -/
theorem c2_counterexample :
    fragMain 0 ⟨0, 0, 0, 0⟩ ⟨0, 0, 0, 0⟩ 1 none ≠
      claimFragMain 0 ⟨0, 0, 0, 0⟩ ⟨0, 0, 0, 0⟩ 1 none := by
  intro h
  have ha := congrArg RGBA.a h
  norm_num [fragMain, claimFragMain] at ha


theorem createLayerS_ok {env : Env} {canvas : Canvas} {name : String}
    {o : LayerOptions} {s s1 : SysState} {la : Layer} (hname : name ≠ "")
    (h : createLayerS env canvas name o s = Except.ok (s1, la)) :
    la.id = s.layerIdCounter ∧ la.name = name ∧
    s1 = { s with
      layers := mapSet s.layers s.layerIdCounter la
      layerNames := mapSet s.layerNames name s.layerIdCounter
      layerIdCounter := s.layerIdCounter + 1 } := by
  simp only [createLayerS, if_neg hname] at h
  rcases hm : mkLayer env canvas s.layerIdCounter name
      { o with zIndex := some (o.zIndex.getD s.layerIdCounter) } with e | l2 <;>
    rw [hm] at h
  · simp at h
  · simp only [Except.ok.injEq, Prod.mk.injEq] at h
    obtain ⟨hs1, hla⟩ := h
    subst hla
    simp only [mkLayer, if_neg hname] at hm
    rcases hcf : createFramebufferM env
        (Option.getD o.width canvas.width)
        (Option.getD o.height canvas.height)
        (Option.getD o.density canvas.density) with _ | fb <;> rw [hcf] at hm
    · simp at hm
    · simp only [Except.ok.injEq] at hm
      subst hm
      exact ⟨rfl, rfl, hs1.symm⟩

/-- C10: after creating two layers under one shared non-empty name (so the
name map resolves to the later one), removeLayer with the earlier layer's
numeric id unconditionally deletes the shared name entry: name lookup then
yields nothing, while the later, still-existing layer carries that name
and remains reachable by its id. -/
theorem c10_remove_shared_name (env : Env) (canvas : Canvas) (s : SysState)
    (name : String) (o1 o2 : LayerOptions) (s1 s2 : SysState) (la lb : Layer)
    (hname : name ≠ "") (hactive : s.activeLayerId = none)
    (h1 : createLayerS env canvas name o1 s = Except.ok (s1, la))
    (h2 : createLayerS env canvas name o2 s1 = Except.ok (s2, lb)) :
    getLayerS (removeLayerS s2 (Ref.byId la.id)).1 (Ref.byName name) = none ∧
    mapGet (removeLayerS s2 (Ref.byId la.id)).1.layers lb.id = some lb ∧
    lb.name = name ∧ la.id ≠ lb.id := by
  obtain ⟨hid1, hname1, hs1⟩ := createLayerS_ok hname h1
  subst hs1
  obtain ⟨hid2, hname2, hs2⟩ := createLayerS_ok hname h2
  subst hs2
  have hc2 : lb.id = s.layerIdCounter + 1 := hid2
  have hidne : la.id ≠ lb.id := by
    rw [hid1, hc2]
    omega
  have hab : ¬la.id = s.layerIdCounter + 1 := by
    rw [hid1]
    omega
  have hba : ¬lb.id = la.id := fun hh => hidne hh.symm
  have hres : mapGet
      (mapSet (mapSet s.layers s.layerIdCounter la) (s.layerIdCounter + 1) lb)
      la.id = some la := by
    rw [mapGet_mapSet, if_neg hab, mapGet_mapSet, if_pos hid1]
  refine ⟨?_, ?_, hname2, hidne⟩
  · simp only [removeLayerS, resolveS, resolveRef, hres, getLayerS, hactive,
      hname1, if_neg hname]
    simp [mapGet_mapDelete]
  · have hba2 : ¬s.layerIdCounter + 1 = la.id := fun hh => hab hh.symm
    simp only [removeLayerS, resolveS, resolveRef, hres, getLayerS, hactive,
      hname1, if_neg hname]
    simp [mapGet_mapDelete, mapGet_mapSet, hba, hc2, hba2]

/-- Witness for C10 on a concrete double creation of the name dup. -/
theorem c10_remove_shared_name_witness :
    getLayerS (removeLayerS dupS2 (Ref.byId dupLa.id)).1
        (Ref.byName "dup") = none ∧
    mapGet (removeLayerS dupS2 (Ref.byId dupLa.id)).1.layers dupLb.id =
      some dupLb ∧
    dupLb.name = "dup" ∧ dupLa.id ≠ dupLb.id :=
  c10_remove_shared_name testEnv testCanvas testSys "dup" dupOpts dupOpts
    dupS1 dupS2 dupLa dupLb (by decide) rfl (by rfl) (by rfl)

theorem resolveS_endSysS_none {s : SysState} {r : Ref}
    (h : resolveS s r = none) : resolveS (endSysS s).1 r = none := by
  unfold endSysS
  rcases ha : s.activeLayerId with _ | aid
  · simp only [ha]
    exact h
  · simp only [ha]
    rcases hm : mapGet s.layers aid with _ | l
    · simp only [hm]
      exact h
    · simp only [hm]
      cases r with
      | byId k =>
        simp only [resolveS, resolveRef] at h ⊢
        rw [mapGet_mapSet]
        split_ifs with hk
        · subst hk
          rw [hm] at h
          cases h
        · exact h
      | byName nm =>
        simp only [resolveS, resolveRef] at h ⊢
        rcases hn : mapGet s.layerNames nm with _ | i
        · simp only [hn]
        · simp only [hn] at h ⊢
          rw [mapGet_mapSet]
          split_ifs with hk
          · subst hk
            rw [hm] at h
            cases h
          · exact h

/-- C5 (amended): begin with a reference that resolves to no layer emits a
diagnostic and makes no further change — with no layer active the whole
system state is unchanged; with a layer active, that layer is first
force-ended (exactly the end transition, a state change) and nothing else
changes. -/
theorem c5_begin_missing_ref :
    (∀ (s : SysState) (r : Ref), s.activeLayerId = none →
      resolveS s r = none → beginSysS s r = (s, [Diag.layerNotFound])) ∧
    (∀ (s : SysState) (r : Ref), s.activeLayerId.isSome →
      resolveS s r = none → (beginSysS s r).1 = (endSysS s).1) := by
  constructor
  · intro s r ha hres
    simp [beginSysS, ha, hres]
  · intro s r ha hres
    have hres2 := resolveS_endSysS_none hres
    simp [beginSysS, ha, hres2]

/-- Counterexample to C5 as stated: on a system with an active layer,
begin with a reference that resolves to no layer changes the state — the
active layer is force-ended. -/
theorem c5_counterexample :
    (beginSysS testSysActive (Ref.byName "zzz")).1 ≠ testSysActive := by
  decide

/-- Witness for C5 amended on a quiescent system and a missing name. -/
theorem c5_begin_missing_ref_witness :
    beginSysS testSys (Ref.byName "zzz") = (testSys, [Diag.layerNotFound]) :=
  c5_begin_missing_ref.1 testSys (Ref.byName "zzz") rfl (by decide)

theorem resolveS_mapGet_id {s : SysState} {la : Layer} {r : Ref}
    (hwf : ∀ p ∈ s.layers, (p.2).id = p.1) (h : resolveS s r = some la) :
    mapGet s.layers la.id = some la := by
  cases r with
  | byId k =>
    simp only [resolveS, resolveRef] at h
    have hk : la.id = k := hwf (k, la) (mapGet_mem h)
    rw [hk]
    exact h
  | byName nm =>
    simp only [resolveS, resolveRef] at h
    rcases hn : mapGet s.layerNames nm with _ | i
    · rw [hn] at h
      cases h
    · simp only [hn] at h
      have hk : la.id = i := hwf (i, la) (mapGet_mem h)
      rw [hk]
      exact h

theorem resolveRef_after_set_id {s : SysState} {la lb : Layer} {r : Ref}
    (hla : mapGet s.layers la.id = some la) (h : resolveS s r = some lb)
    (la2 : Layer) (hid : la2.id = la.id) :
    ∃ lb2, resolveRef (mapSet s.layers la.id la2) s.layerNames r = some lb2 ∧
      lb2.id = lb.id := by
  cases r with
  | byId k =>
    simp only [resolveS, resolveRef] at h
    simp only [resolveRef, mapGet_mapSet]
    by_cases hk : k = la.id
    · subst hk
      rw [h] at hla
      injection hla with hba
      exact ⟨la2, by simp, hid.trans (by rw [hba])⟩
    · exact ⟨lb, by rw [if_neg hk]; exact h, rfl⟩
  | byName nm =>
    simp only [resolveS, resolveRef] at h
    simp only [resolveRef]
    rcases hn : mapGet s.layerNames nm with _ | i
    · rw [hn] at h
      cases h
    · simp only [hn] at h ⊢
      rw [mapGet_mapSet]
      by_cases hk : i = la.id
      · subst hk
        rw [h] at hla
        injection hla with hba
        exact ⟨la2, by simp, hid.trans (by rw [hba])⟩
      · exact ⟨lb, by rw [if_neg hk]; exact h, rfl⟩

/-- C4: at most one layer is ever active (activity is one nullable field);
end with nothing active is a no-op with a diagnostic; and begin(A) then
begin(B) without an intervening end force-ends A — marking it
hasBeenDrawnTo — before B becomes the unique active layer. -/
theorem c4_single_active :
    (∀ s : SysState, s.activeLayerId.toList.length ≤ 1) ∧
    (∀ s : SysState, s.activeLayerId = none →
      endSysS s = (s, [Diag.noActiveLayer])) ∧
    (∀ (s : SysState) (refA refB : Ref) (la lb : Layer),
      (∀ p ∈ s.layers, (p.2).id = p.1) → s.activeLayerId = none →
      resolveS s refA = some la → la.framebuffer.isSome →
      resolveS s refB = some lb →
      (beginSysS (beginSysS s refA).1 refB).1.activeLayerId = some lb.id ∧
      (mapGet (beginSysS (beginSysS s refA).1 refB).1.layers la.id).map
        Layer.hasBeenDrawnTo = some true) := by
  refine ⟨?_, ?_, ?_⟩
  · intro s
    rcases s.activeLayerId with _ | aid <;> simp
  · intro s h
    simp [endSysS, h]
  · intro s refA refB la lb hwf hact hra hfb hrb
    have hla_id : mapGet s.layers la.id = some la := resolveS_mapGet_id hwf hra
    have h1 : (beginSysS s refA).1 = { s with activeLayerId := some la.id } := by
      simp [beginSysS, hact, hra]
    have hend : endSysS { s with activeLayerId := some la.id } =
        ({ s with
            layers := mapSet s.layers la.id { la with hasBeenDrawnTo := true }
            activeLayerId := none }, []) := by
      rcases hfbs : la.framebuffer with _ | fb
      · rw [hfbs] at hfb
        cases hfb
      · simp [endSysS, hla_id, Layer.endL, hfbs]
    obtain ⟨lb2, hres2, hid2⟩ :=
      resolveRef_after_set_id hla_id hrb { la with hasBeenDrawnTo := true } rfl
    rw [h1]
    simp only [beginSysS, hend, Option.isSome_some, if_pos, resolveS]
    simp only [hres2]
    constructor
    · simp [hid2]
    · simp [mapGet_mapSet]

/-- Witness for C4 on the concrete two-layer test system. -/
theorem c4_single_active_witness :
    (beginSysS (beginSysS testSys (Ref.byId 0)).1
        (Ref.byName "b")).1.activeLayerId = some (testLayer 1 1).id ∧
    (mapGet (beginSysS (beginSysS testSys (Ref.byId 0)).1
        (Ref.byName "b")).1.layers (testLayer 0 0).id).map
      Layer.hasBeenDrawnTo = some true :=
  c4_single_active.2.2 testSys (Ref.byId 0) (Ref.byName "b") (testLayer 0 0)
    (testLayer 1 1) (by decide) rfl (by decide) (by decide) (by decide)

theorem mapGet_resizeMap (env : Env) (canvas : Canvas) (k : ℕ) :
    ∀ (m : List (ℕ × Layer)) (l : Layer), mapGet m k = some l →
      mapGet (m.map (fun p =>
        if p.2.customSize then p
        else (p.1, Layer.resizeL env canvas p.2 canvas.width canvas.height
          canvas.density))) k =
      some (if l.customSize then l
        else Layer.resizeL env canvas l canvas.width canvas.height
          canvas.density)
  | [], l => by
    intro h
    cases h
  | p :: m, l => by
    intro h
    rw [mapGet_cons] at h
    by_cases hp : p.1 = k
    · rw [if_pos hp] at h
      injection h with hl
      subst hl
      by_cases hc : p.2.customSize <;>
        simp [List.map_cons, hc, mapGet_cons, hp]
    · rw [if_neg hp] at h
      have ih := mapGet_resizeMap env canvas k m l h
      by_cases hc : p.2.customSize <;>
        simp [List.map_cons, hc, mapGet_cons, hp, ih]

/-- C6: with auto-resize enabled, a render call that observes changed host
width, height or density resizes every layer with customSize false to the
new dimensions and density, leaves every customSize layer fully untouched,
and updates the last-observed values; an unchanged host leaves every layer
untouched. -/
theorem c6_resize_propagation (env : Env) (canvas : Canvas) (s : SysState)
    (hauto : s.autoResize = true) :
    (¬(canvas.width = s.lastCanvasWidth ∧ canvas.height = s.lastCanvasHeight ∧
        canvas.density = s.lastPixelDensity) →
      (∀ (k : ℕ) (l : Layer), mapGet s.layers k = some l →
        mapGet (sysRender env canvas s).1.layers k =
          some (if l.customSize then l
            else Layer.resizeL env canvas l canvas.width canvas.height
              canvas.density)) ∧
      (sysRender env canvas s).1.lastCanvasWidth = canvas.width ∧
      (sysRender env canvas s).1.lastCanvasHeight = canvas.height ∧
      (sysRender env canvas s).1.lastPixelDensity = canvas.density) ∧
    ((canvas.width = s.lastCanvasWidth ∧ canvas.height = s.lastCanvasHeight ∧
        canvas.density = s.lastPixelDensity) →
      (sysRender env canvas s).1.layers = s.layers ∧
      (sysRender env canvas s).1.lastCanvasWidth = s.lastCanvasWidth ∧
      (sysRender env canvas s).1.lastCanvasHeight = s.lastCanvasHeight ∧
      (sysRender env canvas s).1.lastPixelDensity = s.lastPixelDensity) := by
  constructor
  · intro hchg
    have hcr : checkResizeS env canvas s =
        { s with
          lastCanvasWidth := canvas.width
          lastCanvasHeight := canvas.height
          lastPixelDensity := canvas.density
          layers := s.layers.map (fun p =>
            if p.2.customSize then p
            else (p.1, Layer.resizeL env canvas p.2 canvas.width canvas.height
              canvas.density)) } := by
      unfold checkResizeS
      rw [if_neg hchg]
    refine ⟨?_, ?_, ?_, ?_⟩ <;>
      simp only [sysRender, hauto, if_pos, hcr]
    intro k l hl
    exact mapGet_resizeMap env canvas k s.layers l hl
  · intro hsame
    have hcr : checkResizeS env canvas s = s := by
      unfold checkResizeS
      rw [if_pos hsame]
    simp [sysRender, hauto, hcr]

/-- Witness for C6 on a concrete mixed system and a changed host canvas. -/
theorem c6_resize_propagation_witness :
    (∀ (k : ℕ) (l : Layer), mapGet testSysMixed.layers k = some l →
      mapGet (sysRender testEnv ⟨8, 6, 2⟩ testSysMixed).1.layers k =
        some (if l.customSize then l
          else Layer.resizeL testEnv ⟨8, 6, 2⟩ l 8 6 2)) ∧
    (sysRender testEnv ⟨8, 6, 2⟩ testSysMixed).1.lastCanvasWidth = 8 ∧
    (sysRender testEnv ⟨8, 6, 2⟩ testSysMixed).1.lastCanvasHeight = 6 ∧
    (sysRender testEnv ⟨8, 6, 2⟩ testSysMixed).1.lastPixelDensity = 2 :=
  (c6_resize_propagation testEnv ⟨8, 6, 2⟩ testSysMixed rfl).1 (by decide)

theorem ensureBuffers_ok {env : Env} (h : env.allocOk = true)
    (cs : CompState) (canvas : Canvas) :
    (ensureBuffers env cs canvas).2 = true := by
  unfold ensureBuffers
  dsimp only
  split_ifs with hneed
  · simp [createFramebufferM, h]
  · rfl

theorem ensureBuffers_shader_fields {env : Env} (h : env.allocOk = true)
    (cs : CompState) (canvas : Canvas) :
    (ensureBuffers env cs canvas).1.shaderLoaded = cs.shaderLoaded ∧
    (ensureBuffers env cs canvas).1.shader = cs.shader := by
  unfold ensureBuffers
  dsimp only
  split_ifs with hneed
  · simp [createFramebufferM, h]
  · exact ⟨rfl, rfl⟩

theorem renderStep_shader_fail {env : Env} {cs : CompState}
    (hS : env.shaderOk = false) (h1 : cs.shaderLoaded = false)
    (h2 : cs.shader = none) (l : Layer) :
    renderStep env (cs, Image.clear) l = (cs, Image.clear) := by
  simp only [renderStep, renderLayerInto, ensureShader, h1, h2, hS,
    Bool.false_eq_true, if_false]
  split_ifs <;> rfl

theorem renderFold_shader_fail {env : Env} {cs : CompState}
    (hS : env.shaderOk = false) (h1 : cs.shaderLoaded = false)
    (h2 : cs.shader = none) :
    ∀ ls : List Layer,
      ls.foldl (renderStep env) (cs, Image.clear) = (cs, Image.clear)
  | [] => rfl
  | l :: ls => by
    rw [List.foldl_cons, renderStep_shader_fail hS h1 h2 l]
    exact renderFold_shader_fail hS h1 h2 ls

/-- C3 (amended): provided the per-frame ping-pong buffer allocation
succeeds, nothing on the steady-state render path raises: render returns
normally for every state, and a shader compile failure is caught — every
composite pass is skipped and the blitted image is the cleared
accumulator. Per-frame buffer allocation failure in _ensureBuffers,
however, is not caught and escapes Compositor.render (and so
LayerSystem.render) as an exception. -/
theorem c3_render_no_throw :
    (∀ (env : Env) (canvas : Canvas) (s : SysState), env.allocOk = true →
      ∃ img, (sysRender env canvas s).2 = Except.ok img) ∧
    (∀ (env : Env) (cs : CompState) (canvas : Canvas) (layers : List Layer),
      env.allocOk = true → env.shaderOk = false → cs.shaderLoaded = false →
      cs.shader = none →
      (compRender env cs canvas layers).2 = Except.ok Image.clear) ∧
    (∀ (env : Env) (cs : CompState) (canvas : Canvas) (layers : List Layer),
      env.allocOk = false → cs.bufferA = none →
      (compRender env cs canvas layers).2 =
        Except.error Err.bufferAllocFailed) := by
  refine ⟨?_, ?_, ?_⟩
  · intro env canvas s h
    simp only [sysRender, compRender]
    rw [ensureBuffers_ok h]
    simp
  · intro env cs canvas layers hA hS h1 h2
    obtain ⟨hf1, hf2⟩ := ensureBuffers_shader_fields hA cs canvas
    simp only [compRender]
    rw [ensureBuffers_ok hA]
    simp only [if_pos]
    rw [renderFold_shader_fail hS (by rw [hf1, h1]) (by rw [hf2, h2])]
  · intro env cs canvas layers hA hB
    simp only [compRender, ensureBuffers, createFramebufferM, hA, hB]
    simp

/-- Counterexample to C3 as stated: on a fresh compositor with a failing
framebuffer allocator, Compositor.render raises (returns an exception)
instead of logging and skipping. -/
theorem c3_counterexample :
    (compRender ⟨false, true⟩ compInit testCanvas []).2 =
      Except.error Err.bufferAllocFailed := by
  rfl

/-- Witness for C3 amended on a concrete state with allocation succeeding
and shader compilation failing. -/
theorem c3_render_no_throw_witness :
    (compRender ⟨true, false⟩ compInit testCanvas [testLayer 0 0]).2 =
      Except.ok Image.clear :=
  c3_render_no_throw.2.1 ⟨true, false⟩ compInit testCanvas [testLayer 0 0]
    rfl rfl rfl rfl

theorem renderLoop_eq_spec (env : Env) (hS : env.shaderOk = true) :
    ∀ (ls : List Layer) (cs : CompState) (acc : Image),
      (cs.shaderLoaded = true → cs.shader = some ()) →
      (∀ l ∈ ls, l.framebuffer ≠ none) →
      (ls.foldl (renderStep env) (cs, acc)).2 = ls.foldl specStep acc
  | [], cs, acc => by
    intro _ _
    rfl
  | l :: ls, cs, acc => by
    intro hinv hfb
    rw [List.foldl_cons, List.foldl_cons]
    by_cases hskip : ¬l.visible ∨ l.opacity ≤ 0
    · have hstep : renderStep env (cs, acc) l = (cs, acc) := by
        unfold renderStep
        rw [if_pos hskip]
      have hspec : specStep acc l = acc := by
        unfold specStep
        rw [if_neg]
        rintro ⟨hv, hop⟩
        rcases hskip with h | h
        · exact h hv
        · exact absurd hop (not_lt.mpr h)
      rw [hstep, hspec]
      exact renderLoop_eq_spec env hS ls cs acc hinv
        (fun x hx => hfb x (List.mem_cons_of_mem _ hx))
    · have hv : l.visible = true := by
        by_contra hnv
        exact hskip (Or.inl hnv)
      have hop : 0 < l.opacity := by
        by_contra hno
        exact hskip (Or.inr (not_lt.mp hno))
      have hfbl : ¬l.framebuffer = none := hfb l (List.mem_cons_self l ls)
      have hstep : ∃ cs2, renderStep env (cs, acc) l = (cs2, Image.pass l acc) ∧
          (cs2.shaderLoaded = true → cs2.shader = some ()) := by
        unfold renderStep renderLayerInto
        rw [if_neg hskip, if_neg hskip, if_neg hfbl]
        by_cases hld : cs.shaderLoaded
        · have hsh := hinv hld
          unfold ensureShader
          rw [if_pos hld, hsh]
          exact ⟨cs, rfl, hinv⟩
        · unfold ensureShader
          rw [if_neg hld, if_pos hS]
          exact ⟨{ cs with shader := some (), shaderLoaded := true },
            rfl, fun _ => rfl⟩
      obtain ⟨cs2, hstep, hinv2⟩ := hstep
      have hspec : specStep acc l = Image.pass l acc := by
        unfold specStep
        rw [if_pos ⟨hv, hop⟩]
      rw [hstep, hspec]
      exact renderLoop_eq_spec env hS ls cs2 (Image.pass l acc) hinv2
        (fun x hx => hfb x (List.mem_cons_of_mem _ hx))

theorem foldl_specStep_filter :
    ∀ (ls : List Layer) (acc : Image),
      ls.foldl specStep acc =
        (ls.filter (fun l => l.visible && decide (0 < l.opacity))).foldl
          (fun acc l => Image.pass l acc) acc
  | [], _ => rfl
  | l :: ls, acc => by
    rw [List.foldl_cons, List.filter_cons]
    by_cases hc : l.visible ∧ 0 < l.opacity
    · have hb : (l.visible && decide (0 < l.opacity)) = true := by
        simp [hc.1, hc.2]
      rw [if_pos hb, List.foldl_cons]
      have hspec : specStep acc l = Image.pass l acc := by
        unfold specStep
        rw [if_pos hc]
      rw [hspec]
      exact foldl_specStep_filter ls (Image.pass l acc)
    · have hb : ¬(l.visible && decide (0 < l.opacity)) = true := by
        simpa [Bool.and_eq_true, decide_eq_true_eq] using hc
      rw [if_neg hb]
      have hspec : specStep acc l = acc := by
        unfold specStep
        rw [if_neg hc]
      rw [hspec]
      exact foldl_specStep_filter ls acc

/-- C1: Compositor.render refines the left fold: with the ping-pong buffers
allocatable, the shader compiling, and every layer owning a framebuffer,
the image blitted to the main surface is exactly the left fold of one
blend pass per visible, positively-opaque layer over the layers sorted
ascending by zIndex, from a cleared accumulator; a layer that is invisible
or has opacity at most 0 contributes nothing — the fold equals the fold
over the remaining (visible, positive-opacity) layers only. -/
theorem c1_render_refines_fold (env : Env) (cs : CompState) (canvas : Canvas)
    (layers : List Layer) (hA : env.allocOk = true) (hS : env.shaderOk = true)
    (hinv : cs.shaderLoaded = true → cs.shader = some ())
    (hfb : ∀ l ∈ layers, l.framebuffer ≠ none) :
    (compRender env cs canvas layers).2 =
      Except.ok (renderSpecImage layers) ∧
    renderSpecImage layers =
      ((sortLayers layers).filter
        (fun l => l.visible && decide (0 < l.opacity))).foldl
        (fun acc l => Image.pass l acc) Image.clear := by
  constructor
  · obtain ⟨hf1, hf2⟩ := ensureBuffers_shader_fields hA cs canvas
    simp only [compRender]
    rw [ensureBuffers_ok hA]
    simp only [if_pos]
    unfold renderSpecImage
    rw [renderLoop_eq_spec env hS (sortLayers layers)
      (ensureBuffers env cs canvas).1 Image.clear
      (fun hld => by rw [hf2]; exact hinv (by rw [← hf1]; exact hld))
      (fun x hx => hfb x ((mem_sortLayers x layers).mp hx))]
  · unfold renderSpecImage
    exact foldl_specStep_filter _ _

/-- Witness for C1 on a concrete three-layer stack (one hidden layer). -/
theorem c1_render_refines_fold_witness :
    (compRender testEnv compInit testCanvas
        [testLayer 1 1, testLayer 0 0, testLayerHidden]).2 =
      Except.ok
        (renderSpecImage [testLayer 1 1, testLayer 0 0, testLayerHidden]) ∧
    renderSpecImage [testLayer 1 1, testLayer 0 0, testLayerHidden] =
      ((sortLayers [testLayer 1 1, testLayer 0 0, testLayerHidden]).filter
        (fun l => l.visible && decide (0 < l.opacity))).foldl
        (fun acc l => Image.pass l acc) Image.clear :=
  c1_render_refines_fold testEnv compInit testCanvas
    [testLayer 1 1, testLayer 0 0, testLayerHidden] rfl rfl (by decide)
    (by decide)
